import Mathlib

/-!
Verification of the entity/world simulation core of a small 2D game
(`course_1/labs/lab_0/task1/objects.py`).

The embedding translates the Python source into Lean definitions:

* `pygame.Rect` is an axis-aligned integer rectangle (`Rect`);
  `Rect.colliderect` is pygame's strict AABB overlap test and
  `Rect.moveBy` is `Rect.move`.
* `Entity` carries the fields of the Python `Entity` class that the
  simulation reads: center position `x`, `y`, the size, the stored
  rectangle, and the visibility flag `on_screen`.  `Wall` objects are
  plain `Entity` values (the `Wall` subclass only adds registry
  bookkeeping, modelled separately by `Registries`).
* `MovableEntity` extends `Entity` with `only_on_screen`, `on_route`
  and `speed`, exactly as in the source.  The cyclic `Route` pointer
  chain is not an inductive value; where route logic is embedded the
  current node's coordinates are passed as an explicit `target`.
* All coordinates are integers: every entity, wall and speed in the
  repository is constructed from integer literals, and `pygame.Rect`
  stores integer coordinates.  `DISPLAY_RESOLUTION` comes from
  `settings.py` (outside the core source); it is kept as an explicit
  parameter `res`, so every theorem holds for all display sizes.
* The control-flow exceptions `GameOver`, `NextLevel`, `Win` become the
  `Signal` inductive; a frame callback that may raise becomes a
  function into `Except Signal`.
-/

namespace Task1

/-- `pygame.Rect`: integer left/top corner plus width and height. -/
structure Rect where
  left : Int
  top : Int
  w : Int
  h : Int
deriving DecidableEq, Repr

/-- `pygame.Rect.colliderect`: strict AABB overlap on both axes. -/
def Rect.colliderect (a b : Rect) : Bool :=
  decide (a.left < b.left + b.w) && decide (b.left < a.left + a.w) &&
  decide (a.top < b.top + b.h) && decide (b.top < a.top + a.h)

/-- `pygame.Rect.move(x, y)`: shifted copy of the rectangle. -/
def Rect.moveBy (r : Rect) (dx dy : Int) : Rect :=
  { r with left := r.left + dx, top := r.top + dy }

/-- The fields of class `Entity` (objects.py lines 146-191) read by the
simulation core: center position `(x, y)`, size, the stored `rect`, and
the `on_screen` visibility flag.  Registry membership and the `alive`
flag are modelled by `Registries` below. -/
structure Entity where
  x : Int
  y : Int
  width : Int
  height : Int
  rect : Rect
  on_screen : Bool
deriving DecidableEq, Repr

/-- `Entity.left` (objects.py lines 197-199): `self.x - self.width // 2`.
Python `//` is floor division, hence `Int.fdiv`. -/
def Entity.left (e : Entity) : Int :=
  e.x - e.width.fdiv 2

/-- `Entity.top` (objects.py lines 201-203): `self.y - self.height // 2`. -/
def Entity.top (e : Entity) : Int :=
  e.y - e.height.fdiv 2

/-- `Entity.is_collide` (objects.py lines 205-209): `False` when the
receiver is hidden, otherwise `colliderect` of the two stored rects. -/
def Entity.is_collide (self obj : Entity) : Bool :=
  if !self.on_screen then false
  else self.rect.colliderect obj.rect

/-- The fields of class `MovableEntity` (objects.py lines 240-261) used
by the movement resolver and route logic, on top of `Entity`. -/
structure MovableEntity extends Entity where
  only_on_screen : Bool
  on_route : Bool
  speed : Int
deriving DecidableEq, Repr

/-- The vertical part of the screen-bounds clamp of
`MovableEntity.move` (objects.py lines 272-279): computed from the
pre-move derived `top`; the `elif` makes the top-edge check win over
the bottom-edge check.  `res` is `DISPLAY_RESOLUTION` from
`settings.py`. -/
def clampY (res : Int × Int) (self : MovableEntity) (y : Int) : Int :=
  let next_top := self.toEntity.top + y
  let next_bottom := self.toEntity.top + self.height + y
  if next_top < 0 then y + |next_top|
  else if next_bottom > res.2 then y - (next_bottom - res.2) else y

/-- The horizontal part of the screen-bounds clamp of
`MovableEntity.move` (objects.py lines 274-284): computed from the
pre-move derived `left`; the left-edge check wins over the right-edge
check. -/
def clampX (res : Int × Int) (self : MovableEntity) (x : Int) : Int :=
  let next_left := self.toEntity.left + x
  let next_right := self.toEntity.left + self.width + x
  if next_left < 0 then x + |next_left|
  else if next_right > res.1 then x - (next_right - res.1) else x

/-- The screen-bounds clamp of `MovableEntity.move` (objects.py lines
271-284): a single correction pass, applied only when
`only_on_screen`. -/
def clampDisp (res : Int × Int) (self : MovableEntity) (x y : Int) : Int × Int :=
  if self.only_on_screen then (clampX res self x, clampY res self y)
  else (x, y)

/-- The trial rectangle of `MovableEntity.move` (objects.py line 287):
the stored rect shifted by the clamped displacement. -/
def MovableEntity.trialRect (res : Int × Int) (self : MovableEntity) (x y : Int) : Rect :=
  self.rect.moveBy (clampDisp res self x y).1 (clampDisp res self x y).2

/-- `MovableEntity.move` (objects.py lines 267-294).  `walls` is the
live wall registry `Wall.walls_by_id.values()`.  Steps: no-op when
hidden; clamp the displacement when `only_on_screen`; shift the rect;
if any wall's `is_collide` against the moved entity is true, restore
the old rect and return (the position fields are untouched); otherwise
commit by adding the clamped displacement to `x` and `y`. -/
def MovableEntity.move (res : Int × Int) (walls : List Entity)
    (self : MovableEntity) (x y : Int) : MovableEntity :=
  if !self.on_screen then self
  else
    let d := clampDisp res self x y
    let old_rect := self.rect
    let moved : MovableEntity := { self with rect := self.rect.moveBy d.1 d.2 }
    if walls.any (fun w => w.is_collide moved.toEntity) then
      { moved with rect := old_rect }
    else
      { moved with x := self.x + d.1, y := self.y + d.2 }

/-- The per-axis route step of `MovableEntity.frame` (objects.py lines
301-302): `min(self.speed, dist) if dist >= 0 else max(-self.speed, dist)`. -/
def routeStep (speed dist : Int) : Int :=
  if 0 ≤ dist then min speed dist else max (-speed) dist

/-- The displacement computed by the route-following branch of
`MovableEntity.frame` (objects.py lines 298-303) when the rect center
differs from the current route node: per-axis `routeStep` toward the
node's coordinates `target`. -/
def MovableEntity.routeDisp (self : MovableEntity) (target : Int × Int) : Int × Int :=
  (routeStep self.speed (target.1 - self.x), routeStep self.speed (target.2 - self.y))

/-- The rectangle lies inside the display bounds
`[0, res.1] × [0, res.2]` (spec section 8, second property). -/
def rectInBounds (res : Int × Int) (r : Rect) : Prop :=
  0 ≤ r.left ∧ r.left + r.w ≤ res.1 ∧ 0 ≤ r.top ∧ r.top + r.h ≤ res.2

instance (res : Int × Int) (r : Rect) : Decidable (rectInBounds res r) := by
  unfold rectInBounds; infer_instance

/-- The vertical accumulation of `Player.handle_keyboard` (objects.py
lines 359-364): `y` starts at 0, UP adds `-speed`, DOWN adds `+speed`
(two separate `if`s, so both pressed cancel out). -/
noncomputable def kbY (speed : ℝ) (up down : Bool) : ℝ :=
  (if up then -speed else 0) + (if down then speed else 0)

/-- The horizontal accumulation of `Player.handle_keyboard`
(objects.py lines 366-370): LEFT adds `-speed` `elif` RIGHT adds
`+speed` (LEFT wins when both are pressed). -/
noncomputable def kbX (speed : ℝ) (left right : Bool) : ℝ :=
  if left then -speed else if right then speed else 0

open Classical in
/-- The displacement computed by `Player.handle_keyboard` (objects.py
lines 356-377) before it is handed to `move`: when both accumulated
components are nonzero (`if x and y:`), each is replaced by
`±(speed**2 / 2) ** (1/2)`, i.e. `±sqrt(speed^2 / 2)`, keeping its
sign.  The Python arithmetic is on floats; it is embedded with exact
reals. -/
noncomputable def keyboardDisp (speed : ℝ) (up down left right : Bool) : ℝ × ℝ :=
  if kbX speed left right ≠ 0 ∧ kbY speed up down ≠ 0 then
    (if 0 < kbX speed left right then Real.sqrt (speed ^ 2 / 2)
     else -Real.sqrt (speed ^ 2 / 2),
     if 0 < kbY speed up down then Real.sqrt (speed ^ 2 / 2)
     else -Real.sqrt (speed ^ 2 / 2))
  else (kbX speed left right, kbY speed up down)

/-- The control-flow exceptions raised during entity ticking
(`GameOver`, `NextLevel`, `Win` from `exceptions.py`). -/
inductive Signal where
  | gameOver
  | nextLevel
  | win
deriving DecidableEq, Repr

/-- `Game._handle_entities` (objects.py lines 123-125): call
`entity.frame()` on every registered entity in registration order; a
raised signal propagates immediately, so later entities are not
ticked.  Each entity's `frame` is a state transformer that may raise. -/
def tickAll {σ : Type} (fs : List (σ → Except Signal σ)) (s : σ) : Except Signal σ :=
  match fs with
  | [] => .ok s
  | f :: rest =>
    match f s with
    | .error sig => .error sig
    | .ok s2 => tickAll rest s2

/-- The raising check of `EnemyTouch.frame` (objects.py lines 314-319):
when the hazard is `on_screen`, it raises `GameOver` exactly when its
rect `colliderect`s some player in the live registry
`Player.players_by_id.values()`. -/
def enemyTouchRaises (self : MovableEntity) (players : List Entity) : Bool :=
  self.on_screen && players.any (fun p => self.rect.colliderect p.rect)

/-- The three level classes of the repository: `Level1`, `Level2`,
`WinMap`. -/
inductive LKind where
  | level1
  | level2
  | winMap
deriving DecidableEq, Repr

/-- The observable content of a constructed level instance that the
claims mention: the player's spawn center, if the level has a player. -/
structure LevelData where
  playerPos : Option (Int × Int)
deriving DecidableEq, Repr

/-- Constructing a level class (`Level1()` / `Level2()` / `WinMap()`):
`Level1.create_player` and `Level2.create_player` build
`Player(10, 10, 40, 30, ...)`, whose center is `(10, 10)`; `WinMap`
has no player. -/
def mkLevelData : LKind → LevelData
  | .level1 => ⟨some (10, 10)⟩
  | .level2 => ⟨some (10, 10)⟩
  | .winMap => ⟨none⟩

/-- A slot of `Game.levels`: a constructed level instance, a level
class (an uninstantiated placeholder), or — reachable through
`_go_to_level`'s `type(self.levels[level])` when the target slot holds
a class — the metaclass `type` itself. -/
inductive Slot where
  | inst (k : LKind) (d : LevelData)
  | cls (k : LKind)
  | metaTy
deriving DecidableEq, Repr

/-- Python `type(...)` on a slot's content: the class of an instance,
and the metaclass `type` for a class (or for `type` itself). -/
def typeOf : Slot → Slot
  | .inst k _ => .cls k
  | .cls _ => .metaTy
  | .metaTy => .metaTy

/-- Python call `slot()`: calling a class constructs a fresh instance;
calling an instance or `type()` with no arguments raises `TypeError`
(modelled as `none`). -/
def callSlot : Slot → Option Slot
  | .cls k => some (.inst k (mkLevelData k))
  | _ => none

/-- The `Game` state the claims are about (objects.py lines 55-67):
the current level index, the `levels` list of slots, and the win-hold
timestamp `win_time`.  Timestamps are integers; only their ordered
difference is compared in the source. -/
structure Game where
  current : Nat
  levels : List Slot
  winTime : Option Int
deriving DecidableEq, Repr

/-- `Game.__init__` (objects.py lines 56-67): `current_level = 1`,
`levels = [Level1(), Level2, WinMap]` — index 0 holds a constructed
`Level1` instance, the other two hold classes — and `win_time = None`. -/
def gameInit : Game :=
  { current := 1
    levels := [Slot.inst .level1 (mkLevelData .level1), Slot.cls .level2, Slot.cls .winMap]
    winTime := none }

/-- `Game._go_to_level` together with `Game._init_level` (objects.py
lines 127-136): clear and hide the outgoing slot (a `TypeError`, i.e.
`none`, when it is not an instance), overwrite it with
`type(self.levels[level])`, set `current_level = level`, then
`levels[level] = levels[level]()` (a `TypeError` when that slot is not
a class).  Registry effects of `clear()` are modelled by
`clearLevelRegs` below. -/
def Game.goToLevel (g : Game) (level : Nat) : Option Game :=
  match g.levels.get? g.current with
  | some (Slot.inst _ _) =>
    match g.levels.get? level with
    | some target =>
      let levels1 := g.levels.set g.current (typeOf target)
      match levels1.get? level with
      | some s =>
        match callSlot s with
        | some newInst => some { g with current := level, levels := levels1.set level newInst }
        | none => none
      | none => none
    | none => none
  | _ => none

/-- The `except GameOver` handler of `Game.start` (objects.py lines
100-102): `self._go_to_level(self.current_level)`. -/
def Game.handleGameOver (g : Game) : Option Game :=
  g.goToLevel g.current

/-- One iteration of the `while True` loop of `Game.start` (objects.py
lines 85-109), after the quit-event check.  `normalFrame` stands for
`self.frame()` (entity ticking plus rendering), which may raise a
signal.  The returned `Bool` records whether `self.frame()` was
invoked this iteration (`False` on the win-hold path, which only shows
`levels[current_level]`).  `none` models an uncaught `TypeError` from
`_go_to_level`. -/
def loopBody (normalFrame : Game → Except Signal Game) (g : Game) (now : Int) :
    Option (Game × Bool) :=
  match g.winTime with
  | some t =>
    if 10 < now - t then
      match Game.goToLevel { g with winTime := none } 0 with
      | some g2 => some (g2, false)
      | none => none
    else
      some (g, false)
  | none =>
    match normalFrame g with
    | .ok g2 => some (g2, true)
    | .error .gameOver => (g.goToLevel g.current).map (fun g2 => (g2, true))
    | .error .nextLevel => (g.goToLevel (g.current + 1)).map (fun g2 => (g2, true))
    | .error .win =>
        (g.goToLevel (g.levels.length - 1)).map (fun g2 => ({ g2 with winTime := some now }, true))

/-- Whether a slot holds a constructed (live) level instance. -/
def Slot.isInst : Slot → Bool
  | .inst _ _ => true
  | _ => false

/-- Number of live (instantiated) levels in the `levels` list. -/
def Game.liveCount (g : Game) : Nat :=
  (g.levels.filter Slot.isInst).length

/-- Whether the slot at index `current_level` holds a live instance. -/
def Game.currentIsLive (g : Game) : Bool :=
  match g.levels.get? g.current with
  | some s => s.isInst
  | none => false

/-- The key sets of the two global registries:
`Entity.entities_by_id` (ticked by `Game._handle_entities`) and
`Wall.walls_by_id` (queried by `MovableEntity.move`). -/
structure Registries where
  entities : Finset Nat
  walls : Finset Nat
deriving DecidableEq

/-- `Entity.clear` (objects.py lines 193-195): pop the id from
`entities_by_id` (and mark dead). -/
def clearEntityReg (r : Registries) (i : Nat) : Registries :=
  { r with entities := r.entities.erase i }

/-- `Wall.clear` (objects.py lines 235-237): pop the id from
`walls_by_id`, then `Entity.clear`. -/
def clearWallReg (r : Registries) (i : Nat) : Registries :=
  { entities := r.entities.erase i, walls := r.walls.erase i }

/-- A reference held in a level's `entities` list: the entity's id and
whether the object is a `Wall` (whose `clear` also pops the wall
registry) — `Level1.create_entities` puts the two door `Wall`s in this
list. -/
structure EntRef where
  id : Nat
  isWall : Bool
deriving DecidableEq, Repr

/-- Dynamic dispatch of `entity.clear()` on a member of a level's
`entities` list. -/
def clearRef (r : Registries) (e : EntRef) : Registries :=
  if e.isWall then clearWallReg r e.id else clearEntityReg r e.id

/-- The entities owned by a constructed level, as `Level1.clear` /
`Level2.clear` (objects.py lines 390-396) walk them: the player, the
`walls` list, and the `entities` list. -/
structure LevelEnts where
  playerId : Nat
  walls : List Nat
  others : List EntRef
deriving DecidableEq, Repr

/-- All entity ids owned by the level. -/
def LevelEnts.allIds (L : LevelEnts) : List Nat :=
  L.playerId :: (L.walls ++ L.others.map EntRef.id)

/-- `Level1.clear` / `Level2.clear` (objects.py lines 390-396):
`self.player.clear()`, then `wall.clear()` for each wall, then
`entity.clear()` for each other entity. -/
def clearLevelRegs (r : Registries) (L : LevelEnts) : Registries :=
  L.others.foldl clearRef (L.walls.foldl clearWallReg (clearEntityReg r L.playerId))

/-- Registration performed while a level class is constructed: every
created entity's id is inserted into `entities_by_id`
(objects.py line 172), and every `Wall`'s id also into `walls_by_id`
(objects.py line 233). -/
def registerLevel (r : Registries) (L : LevelEnts) : Registries :=
  { entities := L.allIds.foldl (fun s i => insert i s) r.entities
    walls := (L.walls ++ (L.others.filter EntRef.isWall).map EntRef.id).foldl
      (fun s i => insert i s) r.walls }

/-- The registry effect of `Game._go_to_level` (objects.py lines
127-136): first `levels[current_level].clear()` unregisters the whole
outgoing level, and only then `_init_level` constructs (and registers)
the incoming one. -/
def goToLevelRegs (r : Registries) (outgoing incoming : LevelEnts) : Registries :=
  registerLevel (clearLevelRegs r outgoing) incoming

/-- A sample display resolution for concrete evaluations (the actual
`DISPLAY_RESOLUTION` lives in `settings.py`, outside the core source;
all theorems are parametric in it). -/
def res0 : Int × Int := (1280, 720)

/-- Concrete movable entity used in concrete evaluations: a 10×10
entity centered at (100, 100) with its rect in sync, visible, not
clamped to the screen. -/
def eHid : MovableEntity :=
  { x := 100, y := 100, width := 10, height := 10, rect := ⟨95, 95, 10, 10⟩
    on_screen := true, only_on_screen := false, on_route := false, speed := 10 }

/-- A wall that is registered but hidden (`on_screen = False`), whose
rectangle overlaps `eHid` shifted one pixel right. -/
def wHid : Entity :=
  { x := 101, y := 100, width := 10, height := 10, rect := ⟨96, 95, 10, 10⟩
    on_screen := false }

/-- Concrete `only_on_screen` entity taller than the display: 10×1000,
centered so its rect pokes above the screen, rect in sync. -/
def eTall : MovableEntity :=
  { x := 100, y := 495, width := 10, height := 1000, rect := ⟨95, -5, 10, 1000⟩
    on_screen := true, only_on_screen := true, on_route := false, speed := 10 }

/-- Concrete route follower at the origin with speed 10, used to
evaluate the route-following step. -/
def eRoute : MovableEntity :=
  { x := 0, y := 0, width := 10, height := 10, rect := ⟨-5, -5, 10, 10⟩
    on_screen := true, only_on_screen := false, on_route := true, speed := 10 }

/-- Concrete entity with odd width and height (5×3 at the origin). -/
def eOdd : Entity :=
  { x := 0, y := 0, width := 5, height := 3, rect := ⟨-2, -1, 5, 3⟩, on_screen := true }

/-- Concrete entity with even width and height (40×30 at (10, 10),
the player's spawn footprint). -/
def eEven : Entity :=
  { x := 10, y := 10, width := 40, height := 30, rect := ⟨-10, -5, 40, 30⟩, on_screen := true }

/-- A game state in which the slot at `current_level` is the one live
level (index 0 live, as the spec's invariant demands). -/
def gameGood : Game :=
  { current := 0
    levels := [Slot.inst .level1 (mkLevelData .level1), Slot.cls .level2, Slot.cls .winMap]
    winTime := none }

/-- A game state on the win map with the win-hold timer running. -/
def gameWin : Game :=
  { current := 2
    levels := [Slot.cls .level1, Slot.cls .level2, Slot.inst .winMap (mkLevelData .winMap)]
    winTime := some 0 }

/-- The `levels` list produced by the `GameOver` restart
`_go_to_level(current_level)` from a state whose current slot is a
live instance of `k`: the slot is first overwritten with the class
`type(levels[current])` and then with a fresh instance. -/
def reloadedLevels (g : Game) (k : LKind) : List Slot :=
  (g.levels.set g.current (Slot.cls k)).set g.current (Slot.inst k (mkLevelData k))

/-- The `levels` list produced by the win-hold expiry
`_go_to_level(0)` from a state whose current slot is live and whose
slot 0 holds the class `k0`: the outgoing slot receives
`type(levels[0])` — the metaclass — and slot 0 a fresh instance. -/
def winResetLevels (g : Game) (k0 : LKind) : List Slot :=
  (g.levels.set g.current Slot.metaTy).set 0 (Slot.inst k0 (mkLevelData k0))

/-- Concrete registries for concrete evaluations: entities 1-5 are
live, 2 and 3 are walls. -/
def rW : Registries := ⟨{1, 2, 3, 4, 5}, {2, 3}⟩

/-- A concrete level owning player 1, wall 2, and — in its `entities`
list — the wall 3 (like the door walls of `Level1`) and the plain
entity 4. -/
def lW : LevelEnts := ⟨1, [2], [⟨3, true⟩, ⟨4, false⟩]⟩

/-! ## Helper lemmas -/

lemma routeStep_abs (speed dist : Int) (hs : 0 ≤ speed) :
    |routeStep speed dist| ≤ speed ∧ |routeStep speed dist| ≤ |dist| := by
  unfold routeStep
  split_ifs with h
  · rw [abs_of_nonneg (le_min hs h), abs_of_nonneg h]
    exact ⟨min_le_left _ _, min_le_right _ _⟩
  · have hd : dist < 0 := by omega
    have h1 := le_max_left (-speed) dist
    have h2 := le_max_right (-speed) dist
    rw [abs_of_nonpos (max_le (by omega) (by omega)), abs_of_neg hd]
    constructor <;> omega

lemma move_of_on_screen (res : Int × Int) (walls : List Entity) (e : MovableEntity)
    (dx dy : Int) (hon : e.on_screen = true) :
    e.move res walls dx dy =
      (if walls.any (fun w =>
            w.is_collide ({ e with rect := e.trialRect res dx dy } : MovableEntity).toEntity)
       then e
       else { e with
              rect := e.trialRect res dx dy,
              x := e.x + (clampDisp res e dx dy).1,
              y := e.y + (clampDisp res e dx dy).2 }) := by
  rw [MovableEntity.move, if_neg (by rw [hon]; simp)]
  rfl

lemma any_filter_on_screen (l : List Entity) (m : Entity) :
    (l.filter Entity.on_screen).any (fun w => w.is_collide m) =
      l.any (fun w => w.is_collide m) := by
  induction l with
  | nil => rfl
  | cons a t ih =>
    by_cases h : a.on_screen
    · rw [List.filter_cons_of_pos h, List.any_cons, List.any_cons, ih]
    · rw [List.filter_cons_of_neg h, List.any_cons, ih]
      have hcol : a.is_collide m = false := by
        rw [Entity.is_collide]
        simp only [Bool.not_eq_true] at h
        rw [h]
        rfl
      rw [hcol]
      rfl

lemma clampX_bounds (res : Int × Int) (e : MovableEntity) (x : Int)
    (hwR : e.width ≤ res.1) :
    0 ≤ e.toEntity.left + clampX res e x ∧
      e.toEntity.left + e.width + clampX res e x ≤ res.1 := by
  rw [clampX]
  split_ifs with h1 h2
  · rw [abs_of_neg h1]
    constructor <;> omega
  · constructor <;> omega
  · constructor <;> omega

lemma clampY_bounds (res : Int × Int) (e : MovableEntity) (y : Int)
    (hhR : e.height ≤ res.2) :
    0 ≤ e.toEntity.top + clampY res e y ∧
      e.toEntity.top + e.height + clampY res e y ≤ res.2 := by
  rw [clampY]
  split_ifs with h1 h2
  · rw [abs_of_neg h1]
    constructor <;> omega
  · constructor <;> omega
  · constructor <;> omega

lemma clampDisp_of_only (res : Int × Int) (e : MovableEntity) (x y : Int)
    (hoos : e.only_on_screen = true) :
    clampDisp res e x y = (clampX res e x, clampY res e y) := by
  rw [clampDisp, if_pos hoos]

lemma get?_set_self (l : List Slot) (n : Nat) (a : Slot) (h : n < l.length) :
    (l.set n a).get? n = some a := by
  simp [List.get?_eq_getElem?, List.getElem?_set_self', List.getElem?_eq_getElem h]

lemma get?_set_other (l : List Slot) (n m : Nat) (a : Slot) (h : m ≠ n) :
    (l.set m a).get? n = l.get? n := by
  simp [List.get?_eq_getElem?, List.getElem?_set_ne h]

lemma notMem_entities_foldl_clearWallReg (l : List Nat) (r : Registries) (i : Nat)
    (h : i ∉ r.entities) : i ∉ (l.foldl clearWallReg r).entities := by
  induction l generalizing r with
  | nil => exact h
  | cons a t ih =>
    exact ih _ (fun hm => h (Finset.mem_of_mem_erase hm))

lemma notMem_walls_foldl_clearWallReg (l : List Nat) (r : Registries) (i : Nat)
    (h : i ∉ r.walls) : i ∉ (l.foldl clearWallReg r).walls := by
  induction l generalizing r with
  | nil => exact h
  | cons a t ih =>
    exact ih _ (fun hm => h (Finset.mem_of_mem_erase hm))

lemma notMem_entities_foldl_clearRef (l : List EntRef) (r : Registries) (i : Nat)
    (h : i ∉ r.entities) : i ∉ (l.foldl clearRef r).entities := by
  induction l generalizing r with
  | nil => exact h
  | cons a t ih =>
    refine ih _ ?_
    rw [clearRef]
    split <;> exact fun hm => h (Finset.mem_of_mem_erase hm)

lemma notMem_walls_foldl_clearRef (l : List EntRef) (r : Registries) (i : Nat)
    (h : i ∉ r.walls) : i ∉ (l.foldl clearRef r).walls := by
  induction l generalizing r with
  | nil => exact h
  | cons a t ih =>
    refine ih _ ?_
    rw [clearRef]
    split
    · exact fun hm => h (Finset.mem_of_mem_erase hm)
    · exact h

lemma mem_entities_foldl_clearWallReg (l : List Nat) (r : Registries) (i : Nat)
    (h : i ∈ l) : i ∉ (l.foldl clearWallReg r).entities := by
  induction l generalizing r with
  | nil => cases h
  | cons a t ih =>
    rcases List.mem_cons.mp h with rfl | hmem
    · by_cases ht : i ∈ t
      · exact ih _ ht
      · exact notMem_entities_foldl_clearWallReg t _ i (Finset.not_mem_erase i _)
    · exact ih _ hmem

lemma mem_walls_foldl_clearWallReg (l : List Nat) (r : Registries) (i : Nat)
    (h : i ∈ l) : i ∉ (l.foldl clearWallReg r).walls := by
  induction l generalizing r with
  | nil => cases h
  | cons a t ih =>
    rcases List.mem_cons.mp h with rfl | hmem
    · by_cases ht : i ∈ t
      · exact ih _ ht
      · exact notMem_walls_foldl_clearWallReg t _ i (Finset.not_mem_erase i _)
    · exact ih _ hmem

lemma mem_entities_foldl_clearRef (l : List EntRef) (r : Registries) (e : EntRef)
    (h : e ∈ l) : e.id ∉ (l.foldl clearRef r).entities := by
  induction l generalizing r with
  | nil => cases h
  | cons a t ih =>
    rcases List.mem_cons.mp h with rfl | hmem
    · by_cases ht : e ∈ t
      · exact ih _ ht
      · refine notMem_entities_foldl_clearRef t _ e.id ?_
        rw [clearRef]
        split <;> exact Finset.not_mem_erase e.id _
    · exact ih _ hmem

lemma mem_walls_foldl_clearRef (l : List EntRef) (r : Registries) (e : EntRef)
    (h : e ∈ l) (hw : e.isWall = true) : e.id ∉ (l.foldl clearRef r).walls := by
  induction l generalizing r with
  | nil => cases h
  | cons a t ih =>
    rcases List.mem_cons.mp h with rfl | hmem
    · by_cases ht : e ∈ t
      · exact ih _ ht
      · refine notMem_walls_foldl_clearRef t _ e.id ?_
        rw [clearRef, hw]
        simp only [if_true]
        exact Finset.not_mem_erase e.id _
    · exact ih _ hmem

/-! ## Claim theorems -/

/-- C1 (amended): if the entity is on screen and the trial rectangle
(the rect shifted by the possibly clamped displacement) intersects the
rectangle of a wall in the live wall registry that is itself
`on_screen`, then `move` rejects the whole move: the rect equals its
pre-call value and the position fields `x`, `y` are unchanged (no
axis-separated sliding). -/
theorem move_wall_rejection_all_or_nothing
    (res : Int × Int) (walls : List Entity) (e : MovableEntity) (dx dy : Int) (w : Entity)
    (hon : e.on_screen = true) (hmem : w ∈ walls) (hw : w.on_screen = true)
    (hcol : w.rect.colliderect (e.trialRect res dx dy) = true) :
    (e.move res walls dx dy).rect = e.rect ∧
    (e.move res walls dx dy).x = e.x ∧ (e.move res walls dx dy).y = e.y := by
  have hany : (walls.any fun ww =>
      ww.is_collide ({ e with rect := e.trialRect res dx dy } : MovableEntity).toEntity) = true := by
    refine List.any_eq_true.mpr ⟨w, hmem, ?_⟩
    rw [Entity.is_collide, hw]
    simpa using hcol
  rw [move_of_on_screen res walls e dx dy hon, if_pos hany]
  exact ⟨rfl, rfl, rfl⟩

/-- Witness for C1's theorem at a concrete input: `eHid` next to a
visible copy of the overlapping wall. -/
theorem move_wall_rejection_all_or_nothing_witness :
    (eHid.move res0 [{ wHid with on_screen := true }] 1 0).rect = eHid.rect ∧
    (eHid.move res0 [{ wHid with on_screen := true }] 1 0).x = eHid.x ∧
    (eHid.move res0 [{ wHid with on_screen := true }] 1 0).y = eHid.y :=
  move_wall_rejection_all_or_nothing res0 [{ wHid with on_screen := true }] eHid 1 0
    { wHid with on_screen := true } (by decide) (by decide) (by decide) (by decide)

/-- C1 counterexample to the claim as stated: `wHid` is in the wall
registry and its rectangle overlaps the trial rectangle, yet — because
`wHid` is hidden — `move` commits and changes both the rect and `x`. -/
theorem move_hidden_wall_not_rejected_cex :
    eHid.on_screen = true ∧ wHid ∈ [wHid] ∧
    wHid.rect.colliderect (eHid.trialRect res0 1 0) = true ∧
    ¬((eHid.move res0 [wHid] 1 0).rect = eHid.rect ∧
      (eHid.move res0 [wHid] 1 0).x = eHid.x ∧ (eHid.move res0 [wHid] 1 0).y = eHid.y) := by
  decide

/-- C3: the route-following displacement of `MovableEntity.frame` is
per-axis `routeStep` toward the target (that is,
`min(speed, dist)` for `dist ≥ 0` and `max(-speed, dist)` otherwise),
and its per-axis magnitude is at most `speed` and at most the
remaining distance on that axis — the entity never overshoots the
waypoint. -/
theorem route_step_never_overshoots (e : MovableEntity) (target : Int × Int)
    (hs : 0 ≤ e.speed) :
    e.routeDisp target =
      (routeStep e.speed (target.1 - e.x), routeStep e.speed (target.2 - e.y)) ∧
    |(e.routeDisp target).1| ≤ e.speed ∧ |(e.routeDisp target).1| ≤ |target.1 - e.x| ∧
    |(e.routeDisp target).2| ≤ e.speed ∧ |(e.routeDisp target).2| ≤ |target.2 - e.y| :=
  ⟨rfl, (routeStep_abs _ _ hs).1, (routeStep_abs _ _ hs).2,
    (routeStep_abs _ _ hs).1, (routeStep_abs _ _ hs).2⟩

/-- Witness for C3's theorem: `eRoute` (speed 10 at the origin) heading
for the waypoint `(100, 3)`. -/
theorem route_step_never_overshoots_witness :
    eRoute.routeDisp (100, 3) =
      (routeStep eRoute.speed (100 - eRoute.x), routeStep eRoute.speed (3 - eRoute.y)) ∧
    |(eRoute.routeDisp (100, 3)).1| ≤ eRoute.speed ∧
    |(eRoute.routeDisp (100, 3)).1| ≤ |100 - eRoute.x| ∧
    |(eRoute.routeDisp (100, 3)).2| ≤ eRoute.speed ∧
    |(eRoute.routeDisp (100, 3)).2| ≤ |3 - eRoute.y| :=
  route_step_never_overshoots eRoute (100, 3) (by decide)

/-- C9 (amended): the derived edges use Python floor division —
`left = x - width // 2`, `top = y - height // 2` — which coincides
with the exact `x - width/2`, `y - height/2` precisely when the width
(resp. height) is even. -/
theorem left_top_floor_division (e : Entity) (hw : 2 ∣ e.width) (hh : 2 ∣ e.height) :
    e.left = e.x - e.width.fdiv 2 ∧ e.top = e.y - e.height.fdiv 2 ∧
    ((e.left : ℚ) = (e.x : ℚ) - (e.width : ℚ) / 2) ∧
    ((e.top : ℚ) = (e.y : ℚ) - (e.height : ℚ) / 2) := by
  obtain ⟨a, ha⟩ := hw
  obtain ⟨b, hb⟩ := hh
  refine ⟨rfl, rfl, ?_, ?_⟩
  · rw [Entity.left, ha, Int.mul_fdiv_cancel_left a (by norm_num)]
    push_cast
    ring
  · rw [Entity.top, hb, Int.mul_fdiv_cancel_left b (by norm_num)]
    push_cast
    ring

/-- Witness for C9's theorem: the 40×30 entity `eEven`. -/
theorem left_top_floor_division_witness :
    eEven.left = eEven.x - eEven.width.fdiv 2 ∧
    eEven.top = eEven.y - eEven.height.fdiv 2 ∧
    ((eEven.left : ℚ) = (eEven.x : ℚ) - (eEven.width : ℚ) / 2) ∧
    ((eEven.top : ℚ) = (eEven.y : ℚ) - (eEven.height : ℚ) / 2) :=
  left_top_floor_division eEven (by decide) (by decide)

/-- C9 counterexample to the claim as stated: for the 5×3 entity
`eOdd` the derived edges are not `x - width/2` and `y - height/2` in
exact arithmetic (`0 - 5 // 2 = -2 ≠ -5/2`). -/
theorem left_top_half_cex :
    ¬(((eOdd.left : ℚ) = (eOdd.x : ℚ) - (eOdd.width : ℚ) / 2) ∧
      ((eOdd.top : ℚ) = (eOdd.y : ℚ) - (eOdd.height : ℚ) / 2)) := by
  intro h
  have h1 := h.1
  rw [show eOdd.left = -2 by decide] at h1
  norm_num [eOdd] at h1

/-- C2 (amended): for an `only_on_screen` entity that is on screen,
whose stored rect agrees with the derived `left`/`top` and its
`width`/`height`, and which fits the display (`width ≤ res.1`,
`height ≤ res.2`), every `move` either is rejected wholesale (the
entity, rect included, is returned unchanged) or leaves the rect
entirely inside `[0, res.1] × [0, res.2]`.  The clamp is the single
correction pass `clampX`/`clampY` computed from the pre-move
rectangle. -/
theorem move_keeps_rect_in_bounds
    (res : Int × Int) (walls : List Entity) (e : MovableEntity) (dx dy : Int)
    (hon : e.on_screen = true) (hoos : e.only_on_screen = true)
    (hL : e.rect.left = e.toEntity.left) (hT : e.rect.top = e.toEntity.top)
    (hW : e.rect.w = e.width) (hH : e.rect.h = e.height)
    (hwR : e.width ≤ res.1) (hhR : e.height ≤ res.2) :
    e.move res walls dx dy = e ∨ rectInBounds res (e.move res walls dx dy).rect := by
  rw [move_of_on_screen res walls e dx dy hon]
  by_cases hc : (walls.any fun w =>
      w.is_collide ({ e with rect := e.trialRect res dx dy } : MovableEntity).toEntity) = true
  · rw [if_pos hc]
    exact Or.inl rfl
  · rw [if_neg hc]
    refine Or.inr ?_
    show rectInBounds res (e.trialRect res dx dy)
    have hd : clampDisp res e dx dy = (clampX res e dx, clampY res e dy) :=
      clampDisp_of_only res e dx dy hoos
    rw [MovableEntity.trialRect, hd, Rect.moveBy]
    obtain ⟨hx1, hx2⟩ := clampX_bounds res e dx hwR
    obtain ⟨hy1, hy2⟩ := clampY_bounds res e dy hhR
    refine ⟨?_, ?_, ?_, ?_⟩ <;> simp only [] <;> omega

/-- Witness for C2's theorem: a 10×10 entity pushed 3000 pixels right
and 3000 up from the middle of a 1280×720 display, with one wall far
away; the move commits and the rect stays inside the display. -/
theorem move_keeps_rect_in_bounds_witness :
    ({ eHid with only_on_screen := true } : MovableEntity).move res0
        [{ wHid with on_screen := true }] 3000 (-3000) =
      { eHid with only_on_screen := true } ∨
    rectInBounds res0
      (({ eHid with only_on_screen := true } : MovableEntity).move res0
        [{ wHid with on_screen := true }] 3000 (-3000)).rect :=
  move_keeps_rect_in_bounds res0 [{ wHid with on_screen := true }]
    { eHid with only_on_screen := true } 3000 (-3000)
    (by decide) (by decide) (by decide) (by decide) (by decide) (by decide)
    (by decide) (by decide)

/-- C2 counterexample to the claim as stated: the visible
`only_on_screen` entity `eTall` is taller than the display; with an
empty wall registry no wall rejection is possible, `move` commits (the
entity changes), yet the resulting rect is not inside the display. -/
theorem move_tall_entity_out_of_bounds_cex :
    eTall.only_on_screen = true ∧ eTall.on_screen = true ∧
    eTall.move res0 [] 0 0 ≠ eTall ∧
    ¬rectInBounds res0 (eTall.move res0 [] 0 0).rect := by
  decide

/-- C4 (amended): diagonal step capping applies to `Player` keyboard
input only: whenever `handle_keyboard` produces a displacement with
both components nonzero, its squared magnitude equals `speed^2`
exactly.  Route following has no such normalization; its per-axis
steps are only individually bounded by `speed`, so a diagonal route
step may reach squared magnitude `2 * speed^2`. -/
theorem keyboard_diagonal_magnitude :
    (∀ (s : ℝ) (u d l r : Bool), 0 < s →
      (keyboardDisp s u d l r).1 ≠ 0 → (keyboardDisp s u d l r).2 ≠ 0 →
      (keyboardDisp s u d l r).1 ^ 2 + (keyboardDisp s u d l r).2 ^ 2 = s ^ 2) ∧
    (∀ (e : MovableEntity) (t : Int × Int), 0 ≤ e.speed →
      (e.routeDisp t).1 ^ 2 + (e.routeDisp t).2 ^ 2 ≤ 2 * e.speed ^ 2) := by
  constructor
  · intro s u d l r hs h1 h2
    by_cases hc : kbX s l r ≠ 0 ∧ kbY s u d ≠ 0
    · rw [keyboardDisp, if_pos hc]
      have hns : Real.sqrt (s ^ 2 / 2) ^ 2 = s ^ 2 / 2 := Real.sq_sqrt (by positivity)
      have hA : (if 0 < kbX s l r then Real.sqrt (s ^ 2 / 2)
          else -Real.sqrt (s ^ 2 / 2)) ^ 2 = s ^ 2 / 2 := by
        split_ifs
        · exact hns
        · rw [neg_sq]
          exact hns
      have hB : (if 0 < kbY s u d then Real.sqrt (s ^ 2 / 2)
          else -Real.sqrt (s ^ 2 / 2)) ^ 2 = s ^ 2 / 2 := by
        split_ifs
        · exact hns
        · rw [neg_sq]
          exact hns
      rw [hA, hB]
      ring
    · rw [keyboardDisp, if_neg hc] at h1 h2
      exact absurd ⟨h1, h2⟩ hc
  · intro e t hsp
    have hx := (routeStep_abs e.speed (t.1 - e.x) hsp).1
    have hy := (routeStep_abs e.speed (t.2 - e.y) hsp).1
    have hx2 := sq_le_sq' (abs_le.mp hx).1 (abs_le.mp hx).2
    have hy2 := sq_le_sq' (abs_le.mp hy).1 (abs_le.mp hy).2
    have h1 : (e.routeDisp t).1 = routeStep e.speed (t.1 - e.x) := rfl
    have h2 : (e.routeDisp t).2 = routeStep e.speed (t.2 - e.y) := rfl
    rw [h1, h2]
    linarith

/-- Witness for C4's theorem: speed 10 with DOWN and RIGHT pressed
gives squared magnitude exactly `10^2`; the route follower `eRoute`
heading diagonally to `(100, 100)` stays within `2 * 10^2`. -/
theorem keyboard_diagonal_magnitude_witness :
    (keyboardDisp 10 false true false true).1 ^ 2 +
      (keyboardDisp 10 false true false true).2 ^ 2 = (10 : ℝ) ^ 2 ∧
    (eRoute.routeDisp (100, 100)).1 ^ 2 + (eRoute.routeDisp (100, 100)).2 ^ 2 ≤
      2 * eRoute.speed ^ 2 := by
  have hkx : kbX (10 : ℝ) false true = 10 := by simp [kbX]
  have hky : kbY (10 : ℝ) false true = 10 := by simp [kbY]
  have hcond : kbX (10 : ℝ) false true ≠ 0 ∧ kbY (10 : ℝ) false true ≠ 0 := by
    rw [hkx, hky]
    norm_num
  have hval : keyboardDisp 10 false true false true =
      (Real.sqrt (10 ^ 2 / 2), Real.sqrt (10 ^ 2 / 2)) := by
    rw [keyboardDisp, if_pos hcond, hkx, hky]
    norm_num
  constructor
  · refine keyboard_diagonal_magnitude.1 10 false true false true (by norm_num) ?_ ?_ <;>
      rw [hval] <;>
      exact Real.sqrt_ne_zero'.mpr (by norm_num)
  · exact keyboard_diagonal_magnitude.2 eRoute (100, 100) (by decide)

/-- C4 counterexample to the claim as stated: the route follower
`eRoute` (speed 10) with both axes at full desired movement steps
`(10, 10)`, whose squared magnitude `200` is not `speed^2 = 100` —
route following performs no diagonal capping. -/
theorem route_following_not_capped_cex :
    eRoute.on_route = true ∧ eRoute.speed = 10 ∧
    eRoute.routeDisp (100, 100) = (10, 10) ∧
    (eRoute.routeDisp (100, 100)).1 ^ 2 + (eRoute.routeDisp (100, 100)).2 ^ 2 ≠
      eRoute.speed ^ 2 := by
  decide

/-- C5: the code contradicts the claimed invariant already in the
initial state: `Game.__init__` instantiates `Level1` at index 0 (the
only live level) but sets `current_level = 1`, so the slot at
`current_level` is the uninstantiated class `Level2`.  Moreover, from
a state satisfying the invariant (`gameGood`), `_go_to_level(1)`
writes `type(levels[1])` — the metaclass, since `levels[1]` is a class
— into slot 0, breaking the placeholder structure. -/
theorem game_init_current_level_not_live_bug :
    gameInit.current = 1 ∧
    gameInit.levels.get? 0 = some (Slot.inst .level1 (mkLevelData .level1)) ∧
    gameInit.liveCount = 1 ∧
    gameInit.currentIsLive = false ∧
    (gameGood.goToLevel 1).map (fun g => g.levels.get? 0) = some (some Slot.metaTy) := by
  decide

/-- C6: `Level1.clear`/`Level2.clear` (invoked by `_go_to_level`
before the incoming level is constructed) removes every id the level
owns — player, walls, and `entities`-list members — from the
live-entity registry, and every wall it owns from the wall registry;
`goToLevelRegs` registers the incoming level only on the already
cleared registries. -/
theorem level_clear_unregisters_all
    (r : Registries) (L : LevelEnts) (inc : LevelEnts) (i j : Nat) (e : EntRef)
    (hi : i ∈ L.allIds) (hj : j ∈ L.walls) (he : e ∈ L.others) (hew : e.isWall = true) :
    i ∉ (clearLevelRegs r L).entities ∧
    j ∉ (clearLevelRegs r L).walls ∧
    e.id ∉ (clearLevelRegs r L).walls ∧
    goToLevelRegs r L inc = registerLevel (clearLevelRegs r L) inc := by
  refine ⟨?_, ?_, ?_, rfl⟩
  · rw [clearLevelRegs]
    rw [LevelEnts.allIds] at hi
    rcases List.mem_cons.mp hi with rfl | hmem
    · exact notMem_entities_foldl_clearRef _ _ _
        (notMem_entities_foldl_clearWallReg _ _ _ (Finset.not_mem_erase _ _))
    · rcases List.mem_append.mp hmem with hw | ho
      · exact notMem_entities_foldl_clearRef _ _ _
          (mem_entities_foldl_clearWallReg _ _ _ hw)
      · obtain ⟨e2, he2, rfl⟩ := List.mem_map.mp ho
        exact mem_entities_foldl_clearRef _ _ _ he2
  · rw [clearLevelRegs]
    exact notMem_walls_foldl_clearRef _ _ _ (mem_walls_foldl_clearWallReg _ _ _ hj)
  · rw [clearLevelRegs]
    exact mem_walls_foldl_clearRef _ _ _ he hew

/-- Witness for C6's theorem on the concrete registries `rW` and level
`lW`. -/
theorem level_clear_unregisters_all_witness :
    4 ∉ (clearLevelRegs rW lW).entities ∧
    2 ∉ (clearLevelRegs rW lW).walls ∧
    3 ∉ (clearLevelRegs rW lW).walls ∧
    goToLevelRegs rW lW lW = registerLevel (clearLevelRegs rW lW) lW :=
  level_clear_unregisters_all rW lW lW 4 2 ⟨3, true⟩
    (by decide) (by decide) (by decide) (by decide)

/-- C7: an `EnemyTouch` raises `GameOver` iff it is on screen and its
rect overlaps some live player's rect; a signal raised by an entity's
`frame` short-circuits the remaining entities of that frame's global
tick; and the `GameOver` handler reloads the current level: the index
is unchanged and the slot holds a freshly constructed instance (player
at its spawn, per `mkLevelData`). -/
theorem enemy_touch_restarts_level :
    (∀ (e : MovableEntity) (players : List Entity),
      enemyTouchRaises e players = true ↔
        (e.on_screen = true ∧ ∃ p ∈ players, e.rect.colliderect p.rect = true)) ∧
    (∀ (σ : Type) (pre post : List (σ → Except Signal σ))
      (f : σ → Except Signal σ) (s s2 : σ),
      tickAll pre s = .ok s2 → f s2 = .error .gameOver →
      tickAll (pre ++ f :: post) s = .error .gameOver) ∧
    (∀ (g : Game) (k : LKind) (d : LevelData),
      g.levels.get? g.current = some (Slot.inst k d) →
      g.handleGameOver = some { g with levels := reloadedLevels g k } ∧
      ({ g with levels := reloadedLevels g k } : Game).current = g.current ∧
      (reloadedLevels g k).get? g.current = some (Slot.inst k (mkLevelData k))) := by
  refine ⟨?_, ?_, ?_⟩
  · intro e players
    rw [enemyTouchRaises]
    simp [List.any_eq_true]
  · intro σ pre post f s s2 hok herr
    induction pre generalizing s with
    | nil =>
      rw [tickAll] at hok
      injection hok with hs
      subst hs
      rw [List.nil_append, tickAll, herr]
    | cons a t ih =>
      rw [tickAll] at hok
      rw [List.cons_append, tickAll]
      cases ha : a s with
      | error e0 =>
        rw [ha] at hok
        cases hok
      | ok s3 =>
        rw [ha] at hok
        exact ih s3 hok
  · intro g k d hcur
    have hlen : g.current < g.levels.length := (List.get?_eq_some.mp hcur).1
    have hlen1 : g.current < (g.levels.set g.current (Slot.cls k)).length := by
      rw [List.length_set]
      exact hlen
    refine ⟨?_, rfl, ?_⟩
    · rw [Game.handleGameOver, Game.goToLevel, hcur]
      simp only [typeOf]
      rw [get?_set_self _ _ _ hlen]
      simp only [callSlot]
      rfl
    · rw [reloadedLevels]
      exact get?_set_self _ _ _ hlen1

/-- Witness for C7's theorem: the iff at `eHid` over one registered
player, the short-circuit at a concrete raising tick, and the handler
at `gameGood`. -/
theorem enemy_touch_restarts_level_witness :
    (enemyTouchRaises eHid [wHid] = true ↔
      (eHid.on_screen = true ∧ ∃ p ∈ [wHid], eHid.rect.colliderect p.rect = true)) ∧
    tickAll ([] ++ (fun _ : Nat => (.error .gameOver : Except Signal Nat)) ::
      [fun n => .ok n]) 0 = .error .gameOver ∧
    (gameGood.handleGameOver =
      some { gameGood with levels := reloadedLevels gameGood .level1 } ∧
    ({ gameGood with levels := reloadedLevels gameGood .level1 } : Game).current =
      gameGood.current ∧
    (reloadedLevels gameGood .level1).get? gameGood.current =
      some (Slot.inst .level1 (mkLevelData .level1))) :=
  ⟨enemy_touch_restarts_level.1 eHid [wHid],
   enemy_touch_restarts_level.2.1 Nat [] [fun n => .ok n]
     (fun _ => .error .gameOver) 0 0 rfl rfl,
   enemy_touch_restarts_level.2.2 gameGood .level1 (mkLevelData .level1) (by decide)⟩

/-- C8: while `win_time` is set, a frame-loop iteration never invokes
`self.frame()` (no entity ticking or collision checks; only
`levels[current_level]` is shown); once `now - win_time` exceeds 10
seconds the timer is cleared and the game transitions to level index
0, freshly instantiating it.  (The outgoing win slot is left holding
the metaclass by `_go_to_level`'s `type(self.levels[0])`.) -/
theorem win_hold_skips_ticking_and_resets
    (nf : Game → Except Signal Game) (g : Game) (now1 now2 t : Int)
    (k k0 : LKind) (d : LevelData)
    (hwt : g.winTime = some t)
    (hcur : g.levels.get? g.current = some (Slot.inst k d))
    (h0 : g.levels.get? 0 = some (Slot.cls k0))
    (hne : g.current ≠ 0)
    (hgt : 10 < now1 - t) (hle : ¬10 < now2 - t) :
    loopBody nf g now1 =
      some ({ current := 0, levels := winResetLevels g k0, winTime := none }, false) ∧
    loopBody nf g now2 = some (g, false) := by
  constructor
  · rw [loopBody, hwt]
    simp only []
    rw [if_pos hgt, Game.goToLevel]
    rw [show ({ g with winTime := none } : Game).levels = g.levels from rfl,
      show ({ g with winTime := none } : Game).current = g.current from rfl, hcur]
    simp only []
    rw [h0]
    simp only [typeOf]
    rw [get?_set_other _ _ _ _ hne, h0]
    simp only [callSlot]
    rfl
  · rw [loopBody, hwt]
    simp only []
    rw [if_neg hle]

/-- Witness for C8's theorem: `gameWin` (timer started at 0) observed
at times 11 and 5. -/
theorem win_hold_skips_ticking_and_resets_witness :
    loopBody (fun g => Except.ok g) gameWin 11 =
      some ({ current := 0, levels := winResetLevels gameWin .level1,
              winTime := none }, false) ∧
    loopBody (fun g => Except.ok g) gameWin 5 = some (gameWin, false) :=
  win_hold_skips_ticking_and_resets (fun g => Except.ok g) gameWin 11 5 0
    .winMap .level1 (mkLevelData .winMap) rfl (by decide) (by decide)
    (by decide) (by decide) (by decide)

/-- C10: walls that are registered but hidden never influence `move` —
the result over the full wall registry equals the result over only the
visible walls, so hiding a door wall makes its passage traversable
while the wall stays alive and registered. -/
theorem move_unaffected_by_hidden_walls (res : Int × Int) (walls : List Entity)
    (e : MovableEntity) (dx dy : Int) :
    e.move res walls dx dy = e.move res (walls.filter Entity.on_screen) dx dy := by
  by_cases hon : e.on_screen = true
  · rw [move_of_on_screen res walls e dx dy hon,
      move_of_on_screen res (walls.filter Entity.on_screen) e dx dy hon,
      any_filter_on_screen]
  · have hof : e.on_screen = false := Bool.eq_false_iff.mpr hon
    rw [MovableEntity.move, MovableEntity.move, if_pos (by rw [hof]; rfl),
      if_pos (by rw [hof]; rfl)]

end Task1
